import Mathlib

/-!
Verification of the ipcheck MCP server (repository try_mcp).

The repository has two variants of the same tool:
  * src/ipcheck_mcp.py          (low-level MCP server, namespace IpcheckMcp)
  * src/ipcheck_mcp_fastmcp.py  (FastMCP variant, namespace FastMcpVariant)

The outbound HTTP call made through httpx is modelled by an injectable
transport function from a request to an outcome: either a final response
(after any redirect following inside the client) or a transport-level
httpx.HTTPError carrying a textual cause.  Each embedded operation returns
the list of requests it issued together with its result, so that claims
about the number of outbound calls are statable.
-/

set_option autoImplicit false

/-- Outbound HTTP request as configured by client.get in both variants:
url, follow_redirects flag, the User-Agent header value, timeout seconds. -/
structure HttpRequest where
  url : String
  follow_redirects : Bool
  user_agent : String
  timeout : Nat
  deriving DecidableEq, Repr

/-- Upstream HTTP response: status code and decoded body text. -/
structure HttpResponse where
  status_code : Nat
  text : String
  deriving DecidableEq, Repr

/-- Outcome of one client.get call: a response, or a transport-level
httpx.HTTPError (DNS failure, connection refused, timeout, TLS failure)
raised before any response object exists. -/
inductive HttpOutcome where
  | response (r : HttpResponse)
  | httpError (cause : String)
  deriving DecidableEq, Repr

/-- Injectable transport stub: every request gets the given response. -/
def stubTransport (status : Nat) (body : String) : HttpRequest → HttpOutcome :=
  fun _ => HttpOutcome.response ⟨status, body⟩

/-- Injectable transport stub: every request raises a transport-level
httpx.HTTPError with the given cause. -/
def stubFailure (cause : String) : HttpRequest → HttpOutcome :=
  fun _ => HttpOutcome.httpError cause

namespace IpcheckMcp

/-- Error codes used by src/ipcheck_mcp.py through mcp.types: the file
imports exactly INVALID_PARAMS and INTERNAL_ERROR and raises McpError
with one of these two codes. -/
inductive ErrorCode where
  | INVALID_PARAMS
  | INTERNAL_ERROR
  deriving DecidableEq, Repr

/-- Payload of McpError as raised in src/ipcheck_mcp.py: a machine-readable
code and a human-readable message. -/
structure ErrorData where
  code : ErrorCode
  message : String
  deriving DecidableEq, Repr

/-- TextContent as built by call_tool: a type tag and the text payload. -/
structure TextContent where
  type : String
  text : String
  deriving DecidableEq, Repr

/-- DEFAULT_USER_AGENT of src/ipcheck_mcp.py line 32. -/
def DEFAULT_USER_AGENT : String := "ModelContextProtocol/1.0 (IP Checker)"

/-- get_ip_address of src/ipcheck_mcp.py lines 44-71.  The url is the base
endpoint, with the /all.json suffix appended exactly when format_type is
"json"; one client.get is issued with follow_redirects True, the given
User-Agent header and timeout 10; a status code of at least 400 raises
McpError with code INTERNAL_ERROR carrying the status code in the message;
an httpx.HTTPError from the call is caught and re-raised as McpError with
code INTERNAL_ERROR carrying the cause; otherwise response.text is
returned.  The first component lists the requests issued. -/
def get_ip_address (transport : HttpRequest → HttpOutcome)
    (format_type : String) (user_agent : String) :
    List HttpRequest × Except ErrorData String :=
  let url := "https://ifconfig.me"
  let url := if format_type = "json" then url ++ "/all.json" else url
  let req : HttpRequest := ⟨url, true, user_agent, 10⟩
  match transport req with
  | HttpOutcome.response r =>
      if r.status_code ≥ 400 then
        ([req], Except.error ⟨ErrorCode.INTERNAL_ERROR,
          "Failed to fetch IP address - status code " ++ toString r.status_code⟩)
      else
        ([req], Except.ok r.text)
  | HttpOutcome.httpError cause =>
      ([req], Except.error ⟨ErrorCode.INTERNAL_ERROR,
        "Failed to fetch IP address: " ++ cause⟩)

/-- call_tool of src/ipcheck_mcp.py lines 202-224, for the ipcheck tool.
The format argument is modelled as an optional string (pydantic fills in
the default "text" when the field is absent).  A format outside
\x7b"text", "json"\x7d raises McpError with code INVALID_PARAMS before
get_ip_address is called; otherwise the lookup result is wrapped in one
TextContent with a fixed label prefix. -/
def call_tool (transport : HttpRequest → HttpOutcome) (user_agent : String)
    (format_arg : Option String) :
    List HttpRequest × Except ErrorData (List TextContent) :=
  let format_type := format_arg.getD "text"
  if format_type = "text" ∨ format_type = "json" then
    match get_ip_address transport format_type user_agent with
    | (reqs, Except.ok ip_info) =>
        (reqs, Except.ok [⟨"text", "Server IP information from ifconfig.me:\n" ++ ip_info⟩])
    | (reqs, Except.error e) => (reqs, Except.error e)
  else
    ([], Except.error ⟨ErrorCode.INVALID_PARAMS, "Format must be \x27text\x27 or \x27json\x27"⟩)

/-- User agent resolution in serve, src/ipcheck_mcp.py line 175:
custom_user_agent or DEFAULT_USER_AGENT.  The Python or operator treats
the empty string as falsy, so an empty override also yields the default. -/
def serve_user_agent (custom_user_agent : Option String) : String :=
  match custom_user_agent with
  | none => DEFAULT_USER_AGENT
  | some s => if s = "" then DEFAULT_USER_AGENT else s

/-- Observation helper: the machine-readable error code of a lookup result,
none on success. -/
def errKind (r : Except ErrorData String) : Option ErrorCode :=
  match r with
  | Except.error e => some e.code
  | Except.ok _ => none

end IpcheckMcp

namespace FastMcpVariant

/-- Python exceptions escaping get_ip_address and ipcheck in
src/ipcheck_mcp_fastmcp.py. -/
inductive PyError where
  | valueError (msg : String)
  | runtimeError (msg : String)
  | unboundLocalError (varName : String)
  deriving DecidableEq, Repr

/-- DEFAULT_USER_AGENT of src/ipcheck_mcp_fastmcp.py line 23. -/
def DEFAULT_USER_AGENT : String := "ModelContextProtocol/1.0 (IP Checker via FastMCP)"

/-- get_ip_address of src/ipcheck_mcp_fastmcp.py lines 26-53.  A
format_type outside \x7b"text", "json"\x7d raises ValueError before any
request is issued.  Otherwise one client.get is issued; on a response,
response.raise_for_status raises httpx.HTTPStatusError (a subclass of
httpx.HTTPError) exactly when the status is not a 2xx success code (the
documented httpx behavior, which also covers informational and redirect
statuses), and the except httpx.HTTPError handler then raises RuntimeError
carrying response.status_code.  On a transport-level httpx.HTTPError the
same handler runs, but the local variable response was never bound, so
evaluating response.status_code in the handler raises UnboundLocalError;
an exception raised inside an except clause is not caught by the later
except Exception clause of the same try statement, so it escapes.
The fetch helper below embeds the try statement (lines 35-53); the url
selection and format check (lines 28-32) are in get_ip_address itself. -/
def fetch (transport : HttpRequest → HttpOutcome) (url user_agent : String) :
    List HttpRequest × Except PyError String :=
  let req : HttpRequest := ⟨url, true, user_agent, 10⟩
  match transport req with
  | HttpOutcome.response r =>
      if 200 ≤ r.status_code ∧ r.status_code < 300 then
        ([req], Except.ok r.text)
      else
        ([req], Except.error (PyError.runtimeError
          ("HTTP Error fetching IP: " ++ toString r.status_code)))
  | HttpOutcome.httpError _ =>
      ([req], Except.error (PyError.unboundLocalError "response"))

/-- get_ip_address of src/ipcheck_mcp_fastmcp.py lines 26-53: url and
format selection, then the try statement embedded as fetch. -/
def get_ip_address (transport : HttpRequest → HttpOutcome)
    (format_type : String) (user_agent : String) :
    List HttpRequest × Except PyError String :=
  if format_type = "json" then
    fetch transport ("https://ifconfig.me" ++ "/all.json") user_agent
  else if format_type ≠ "text" then
    ([], Except.error (PyError.valueError "Invalid format_type specified."))
  else
    fetch transport "https://ifconfig.me" user_agent

/-- ipcheck tool of src/ipcheck_mcp_fastmcp.py lines 61-78.  The declared
parameter type Literal["text", "json"] is enforced by the FastMCP
framework outside this file; the body itself always uses the module
constant DEFAULT_USER_AGENT, calls get_ip_address, and on success prefixes
the body with a label naming the format.  The except clause logs and
re-raises, so errors propagate unchanged. -/
def ipcheck (transport : HttpRequest → HttpOutcome) (format : String) :
    List HttpRequest × Except PyError String :=
  let user_agent := DEFAULT_USER_AGENT
  match get_ip_address transport format user_agent with
  | (reqs, Except.ok ip_info) =>
      (reqs, Except.ok ("Server IP information (" ++ format ++ "):\n" ++ ip_info))
  | (reqs, Except.error e) => (reqs, Except.error e)

end FastMcpVariant

/-! Helper lemmas about the list of issued requests. -/

theorem IpcheckMcp.get_ip_address_requests (t : HttpRequest → HttpOutcome)
    (f ua : String) :
    (IpcheckMcp.get_ip_address t f ua).1 =
      [⟨if f = "json" then "https://ifconfig.me" ++ "/all.json" else "https://ifconfig.me",
        true, ua, 10⟩] := by
  simp only [IpcheckMcp.get_ip_address]
  split <;> first | rfl | (split <;> rfl)

theorem FastMcpVariant.fetch_requests (t : HttpRequest → HttpOutcome)
    (url ua : String) :
    (FastMcpVariant.fetch t url ua).1 = [⟨url, true, ua, 10⟩] := by
  simp only [FastMcpVariant.fetch]
  split <;> first | rfl | (split <;> rfl)

theorem FastMcpVariant.get_ip_address_text (t : HttpRequest → HttpOutcome)
    (ua : String) :
    FastMcpVariant.get_ip_address t "text" ua =
      FastMcpVariant.fetch t "https://ifconfig.me" ua := by
  rfl

theorem FastMcpVariant.get_ip_address_json (t : HttpRequest → HttpOutcome)
    (ua : String) :
    FastMcpVariant.get_ip_address t "json" ua =
      FastMcpVariant.fetch t "https://ifconfig.me/all.json" ua := by
  rfl

/-- C1: for every format value outside \x7b"text", "json"\x7d, invoking the
ipcheck operation fails with the InvalidParameter classification
(INVALID_PARAMS in the low-level variant, ValueError in the FastMCP
variant) and issues zero outbound requests. -/
theorem c1_invalid_format_rejected_before_io
    (t : HttpRequest → HttpOutcome) (ua f : String)
    (h1 : f ≠ "text") (h2 : f ≠ "json") :
    IpcheckMcp.call_tool t ua (some f) =
      ([], Except.error ⟨IpcheckMcp.ErrorCode.INVALID_PARAMS,
        "Format must be \x27text\x27 or \x27json\x27"⟩)
    ∧ FastMcpVariant.ipcheck t f =
      ([], Except.error (FastMcpVariant.PyError.valueError
        "Invalid format_type specified.")) := by
  constructor
  · unfold IpcheckMcp.call_tool
    simp [h1, h2]
  · unfold FastMcpVariant.ipcheck FastMcpVariant.get_ip_address
    simp [h1, h2]

/-- Witness for C1 at the concrete format "xml". -/
theorem c1_witness :
    ("xml" : String) ≠ "text" ∧ ("xml" : String) ≠ "json" ∧
    (IpcheckMcp.call_tool (stubTransport 200 "1.2.3.4") IpcheckMcp.DEFAULT_USER_AGENT
        (some "xml") =
      ([], Except.error ⟨IpcheckMcp.ErrorCode.INVALID_PARAMS,
        "Format must be \x27text\x27 or \x27json\x27"⟩)
    ∧ FastMcpVariant.ipcheck (stubTransport 200 "1.2.3.4") "xml" =
      ([], Except.error (FastMcpVariant.PyError.valueError
        "Invalid format_type specified."))) :=
  ⟨by decide, by decide,
    c1_invalid_format_rejected_before_io (stubTransport 200 "1.2.3.4")
      IpcheckMcp.DEFAULT_USER_AGENT "xml" (by decide) (by decide)⟩

/-- C2 counterexample: the error raised for an upstream status of 503
carries the same machine-readable code INTERNAL_ERROR as the error raised
for a transport-level failure, so the classification of a status of at
least 400 is not a machine-readable kind distinct from the other error
kinds of the taxonomy; the distinction lives only in the message text. -/
theorem c2_upstream_kind_not_distinct :
    IpcheckMcp.errKind
      (IpcheckMcp.get_ip_address (stubTransport 503 "oops") "text"
        IpcheckMcp.DEFAULT_USER_AGENT).2 =
      some IpcheckMcp.ErrorCode.INTERNAL_ERROR
    ∧ IpcheckMcp.errKind
      (IpcheckMcp.get_ip_address (stubFailure "ConnectError") "text"
        IpcheckMcp.DEFAULT_USER_AGENT).2 =
      some IpcheckMcp.ErrorCode.INTERNAL_ERROR := by
  exact ⟨rfl, rfl⟩

/-- C2 amended: an upstream status of at least 400 makes both variants
fail with an error whose message carries the status code, but the
machine-readable code is the generic one (INTERNAL_ERROR, respectively a
RuntimeError), not a kind distinct from transport or internal errors. -/
theorem c2_upstream_error_carries_status
    (s : Nat) (b ua f : String) (h : 400 ≤ s) :
    (IpcheckMcp.get_ip_address (stubTransport s b) f ua).2 =
      Except.error ⟨IpcheckMcp.ErrorCode.INTERNAL_ERROR,
        "Failed to fetch IP address - status code " ++ toString s⟩
    ∧ (FastMcpVariant.get_ip_address (stubTransport s b) "text" ua).2 =
      Except.error (FastMcpVariant.PyError.runtimeError
        ("HTTP Error fetching IP: " ++ toString s)) := by
  constructor
  · unfold IpcheckMcp.get_ip_address stubTransport
    simp only
    rw [if_pos h]
  · unfold FastMcpVariant.get_ip_address FastMcpVariant.fetch stubTransport
    simp only [if_neg (by decide : ¬ ("text" : String) = "json")]
    rw [if_neg (by simp)]
    rw [if_neg (by omega)]

/-- Witness for C2 amended at status 503. -/
theorem c2_witness :
    400 ≤ 503 ∧
    ((IpcheckMcp.get_ip_address (stubTransport 503 "busy") "text"
        IpcheckMcp.DEFAULT_USER_AGENT).2 =
      Except.error ⟨IpcheckMcp.ErrorCode.INTERNAL_ERROR,
        "Failed to fetch IP address - status code " ++ toString 503⟩
    ∧ (FastMcpVariant.get_ip_address (stubTransport 503 "busy") "text"
        IpcheckMcp.DEFAULT_USER_AGENT).2 =
      Except.error (FastMcpVariant.PyError.runtimeError
        ("HTTP Error fetching IP: " ++ toString 503))) :=
  ⟨by decide,
    c2_upstream_error_carries_status 503 "busy" IpcheckMcp.DEFAULT_USER_AGENT "text"
      (by decide)⟩

/-- C3: evaluation of the FastMCP variant at the failing input.  With the
format "text" and a transport that raises a connect timeout, the single
request is issued and the invocation fails with UnboundLocalError on the
local variable response, not with a classified error carrying the
underlying cause as the claim requires. -/
theorem c3_transport_failure_crashes_handler :
    FastMcpVariant.get_ip_address (stubFailure "httpx.ConnectTimeout: timed out")
        "text" FastMcpVariant.DEFAULT_USER_AGENT =
      ([⟨"https://ifconfig.me", true, FastMcpVariant.DEFAULT_USER_AGENT, 10⟩],
        Except.error (FastMcpVariant.PyError.unboundLocalError "response")) := by
  rfl

/-- C4: the target url is selected solely by the format parameter, in both
variants: no suffix for "text", the fixed /all.json suffix for "json",
independent of the transport outcome and of the user agent. -/
theorem c4_url_selected_solely_by_format
    (t : HttpRequest → HttpOutcome) (ua : String) :
    (IpcheckMcp.get_ip_address t "text" ua).1 =
      [⟨"https://ifconfig.me", true, ua, 10⟩]
    ∧ (IpcheckMcp.get_ip_address t "json" ua).1 =
      [⟨"https://ifconfig.me/all.json", true, ua, 10⟩]
    ∧ (FastMcpVariant.get_ip_address t "text" ua).1 =
      [⟨"https://ifconfig.me", true, ua, 10⟩]
    ∧ (FastMcpVariant.get_ip_address t "json" ua).1 =
      [⟨"https://ifconfig.me/all.json", true, ua, 10⟩] := by
  refine ⟨?_, ?_, ?_, ?_⟩
  · rw [IpcheckMcp.get_ip_address_requests]; rfl
  · rw [IpcheckMcp.get_ip_address_requests]; rfl
  · rw [FastMcpVariant.get_ip_address_text, FastMcpVariant.fetch_requests]
  · rw [FastMcpVariant.get_ip_address_json, FastMcpVariant.fetch_requests]

/-- C5 counterexample: a final upstream response with the redirect status
304 has a status below 400, yet the FastMCP variant does not return its
body: response.raise_for_status raises for every non-2xx status, so the
invocation fails with a RuntimeError.  The claim as stated, success for
every status below 400, therefore fails on this variant. -/
theorem c5_status_304_not_returned :
    (304 : Nat) < 400
    ∧ (FastMcpVariant.get_ip_address (stubTransport 304 "cached-body") "text"
        FastMcpVariant.DEFAULT_USER_AGENT).2 =
      Except.error (FastMcpVariant.PyError.runtimeError
        "HTTP Error fetching IP: 304") := by
  exact ⟨by decide, rfl⟩

/-- C5 amended: the low-level variant returns the response body verbatim
for every status below 400; the FastMCP variant returns it verbatim for
every 2xx status (its raise_for_status call rejects all other statuses). -/
theorem c5_success_body_verbatim
    (s s2 : Nat) (b ua : String) (h : s < 400) (h2 : 200 ≤ s2) (h3 : s2 < 300) :
    (IpcheckMcp.get_ip_address (stubTransport s b) "text" ua).2 = Except.ok b
    ∧ (FastMcpVariant.get_ip_address (stubTransport s2 b) "text" ua).2 =
      Except.ok b := by
  constructor
  · simp only [IpcheckMcp.get_ip_address, stubTransport]
    rw [if_neg (by omega)]
  · rw [FastMcpVariant.get_ip_address_text]
    simp only [FastMcpVariant.fetch, stubTransport]
    rw [if_pos ⟨h2, h3⟩]

/-- Witness for C5 amended at status 200 with the body 203.0.113.5. -/
theorem c5_witness :
    (200 : Nat) < 400 ∧ (200 : Nat) ≤ 200 ∧ (200 : Nat) < 300 ∧
    ((IpcheckMcp.get_ip_address (stubTransport 200 "203.0.113.5") "text"
        IpcheckMcp.DEFAULT_USER_AGENT).2 = Except.ok "203.0.113.5"
    ∧ (FastMcpVariant.get_ip_address (stubTransport 200 "203.0.113.5") "text"
        IpcheckMcp.DEFAULT_USER_AGENT).2 = Except.ok "203.0.113.5") :=
  ⟨by decide, by decide, by decide,
    c5_success_body_verbatim 200 200 "203.0.113.5" IpcheckMcp.DEFAULT_USER_AGENT
      (by decide) (by decide) (by decide)⟩

/-- C6: for every successful invocation, the surfaced result is a single
text payload made of a human-readable label prefix followed by the raw
lookup body, unmodified: the low-level call_tool wraps the body in one
TextContent with a fixed label line, the FastMCP ipcheck tool prefixes a
label naming the format. -/
theorem c6_result_label_prefix_plus_raw_body
    (s s2 : Nat) (b ua f : String) (h : s < 400) (h2 : 200 ≤ s2) (h3 : s2 < 300)
    (hf : f = "text" ∨ f = "json") :
    (IpcheckMcp.call_tool (stubTransport s b) ua (some f)).2 =
      Except.ok [⟨"text", "Server IP information from ifconfig.me:\n" ++ b⟩]
    ∧ (FastMcpVariant.ipcheck (stubTransport s2 b) f).2 =
      Except.ok ("Server IP information (" ++ f ++ "):\n" ++ b) := by
  constructor
  · simp only [IpcheckMcp.call_tool, Option.getD, if_pos hf]
    simp only [IpcheckMcp.get_ip_address, stubTransport]
    rw [if_neg (by omega)]
  · rcases hf with hf | hf <;> subst hf <;>
      simp only [FastMcpVariant.ipcheck, FastMcpVariant.get_ip_address_text,
        FastMcpVariant.get_ip_address_json, FastMcpVariant.fetch, stubTransport] <;>
      rw [if_pos ⟨h2, h3⟩]

/-- Witness for C6 at status 200 with the body 198.51.100.7. -/
theorem c6_witness :
    (200 : Nat) < 400 ∧ (200 : Nat) ≤ 200 ∧ (200 : Nat) < 300 ∧
    (("text" : String) = "text" ∨ ("text" : String) = "json") ∧
    ((IpcheckMcp.call_tool (stubTransport 200 "198.51.100.7")
        IpcheckMcp.DEFAULT_USER_AGENT (some "text")).2 =
      Except.ok [⟨"text", "Server IP information from ifconfig.me:\n" ++ "198.51.100.7"⟩]
    ∧ (FastMcpVariant.ipcheck (stubTransport 200 "198.51.100.7") "text").2 =
      Except.ok ("Server IP information (" ++ "text" ++ "):\n" ++ "198.51.100.7")) :=
  ⟨by decide, by decide, by decide, Or.inl rfl,
    c6_result_label_prefix_plus_raw_body 200 200 "198.51.100.7"
      IpcheckMcp.DEFAULT_USER_AGENT "text" (by decide) (by decide) (by decide)
      (Or.inl rfl)⟩

theorem FastMcpVariant.ipcheck_requests (t : HttpRequest → HttpOutcome)
    (f : String) :
    (FastMcpVariant.ipcheck t f).1 =
      (FastMcpVariant.get_ip_address t f FastMcpVariant.DEFAULT_USER_AGENT).1 := by
  simp only [FastMcpVariant.ipcheck]
  cases h : FastMcpVariant.get_ip_address t f FastMcpVariant.DEFAULT_USER_AGENT with
  | mk reqs r => cases r <;> simp [h]

/-- C7 counterexample: an empty-string override is a supplied override,
yet the resolved user agent is the default constant, not the override: the
Python or operator treats the empty string as falsy. -/
theorem c7_empty_override_ignored :
    IpcheckMcp.serve_user_agent (some "") = IpcheckMcp.DEFAULT_USER_AGENT
    ∧ IpcheckMcp.DEFAULT_USER_AGENT ≠ "" := by
  exact ⟨rfl, by decide⟩

/-- C7 amended: with no override the resolved user agent is the default
constant, and with a non-empty override it is the override; the resolved
value is sent verbatim as the User-Agent header of the one outbound
request.  The FastMCP variant has no override mechanism and always sends
its own module-level default constant. -/
theorem c7_user_agent_header_resolution
    (t : HttpRequest → HttpOutcome) (f s ua : String) (hs : s ≠ "") :
    IpcheckMcp.serve_user_agent none = IpcheckMcp.DEFAULT_USER_AGENT
    ∧ IpcheckMcp.serve_user_agent (some s) = s
    ∧ (IpcheckMcp.get_ip_address t f ua).1.map HttpRequest.user_agent = [ua]
    ∧ (FastMcpVariant.ipcheck t "text").1.map HttpRequest.user_agent =
      [FastMcpVariant.DEFAULT_USER_AGENT] := by
  refine ⟨rfl, ?_, ?_, ?_⟩
  · simp only [IpcheckMcp.serve_user_agent]
    rw [if_neg hs]
  · rw [IpcheckMcp.get_ip_address_requests]
    rfl
  · rw [FastMcpVariant.ipcheck_requests, FastMcpVariant.get_ip_address_text,
      FastMcpVariant.fetch_requests]
    rfl

/-- Witness for C7 amended with the override TestAgent/2.0. -/
theorem c7_witness :
    ("TestAgent/2.0" : String) ≠ "" ∧
    (IpcheckMcp.serve_user_agent none = IpcheckMcp.DEFAULT_USER_AGENT
    ∧ IpcheckMcp.serve_user_agent (some "TestAgent/2.0") = "TestAgent/2.0"
    ∧ (IpcheckMcp.get_ip_address (stubTransport 200 "9.9.9.9") "text"
        "TestAgent/2.0").1.map HttpRequest.user_agent = ["TestAgent/2.0"]
    ∧ (FastMcpVariant.ipcheck (stubTransport 200 "9.9.9.9") "text").1.map
        HttpRequest.user_agent = [FastMcpVariant.DEFAULT_USER_AGENT]) :=
  ⟨by decide,
    c7_user_agent_header_resolution (stubTransport 200 "9.9.9.9") "text"
      "TestAgent/2.0" "TestAgent/2.0" (by decide)⟩

/-- C8: for every transport outcome, each lookup invocation with a valid
format issues exactly one outbound request (a singleton list, so no retry
on any failure), configured with redirect following enabled, the supplied
user agent and the fixed timeout of 10 seconds, in both variants. -/
theorem c8_single_get_fixed_config
    (t : HttpRequest → HttpOutcome) (ua f : String)
    (hf : f = "text" ∨ f = "json") :
    (IpcheckMcp.get_ip_address t f ua).1 =
      [⟨if f = "json" then "https://ifconfig.me/all.json" else "https://ifconfig.me",
        true, ua, 10⟩]
    ∧ (FastMcpVariant.get_ip_address t f ua).1 =
      [⟨if f = "json" then "https://ifconfig.me/all.json" else "https://ifconfig.me",
        true, ua, 10⟩] := by
  constructor
  · rw [IpcheckMcp.get_ip_address_requests]
    rcases hf with hf | hf <;> subst hf <;> rfl
  · rcases hf with hf | hf <;> subst hf
    · rw [FastMcpVariant.get_ip_address_text, FastMcpVariant.fetch_requests]
      rfl
    · rw [FastMcpVariant.get_ip_address_json, FastMcpVariant.fetch_requests]
      rfl

/-- Witness for C8 with the format "json" and a failing transport: even on
a TLS failure exactly one request was issued, so there is no retry. -/
theorem c8_witness :
    (("json" : String) = "text" ∨ ("json" : String) = "json") ∧
    ((IpcheckMcp.get_ip_address (stubFailure "ssl: handshake failure") "json"
        IpcheckMcp.DEFAULT_USER_AGENT).1 =
      [⟨if ("json" : String) = "json" then "https://ifconfig.me/all.json"
          else "https://ifconfig.me", true, IpcheckMcp.DEFAULT_USER_AGENT, 10⟩]
    ∧ (FastMcpVariant.get_ip_address (stubFailure "ssl: handshake failure") "json"
        IpcheckMcp.DEFAULT_USER_AGENT).1 =
      [⟨if ("json" : String) = "json" then "https://ifconfig.me/all.json"
          else "https://ifconfig.me", true, IpcheckMcp.DEFAULT_USER_AGENT, 10⟩]) :=
  ⟨Or.inr rfl,
    c8_single_get_fixed_config (stubFailure "ssl: handshake failure")
      IpcheckMcp.DEFAULT_USER_AGENT "json" (Or.inr rfl)⟩

/-- C9: the low-level get_ip_address performs no format validation: for
every format_type other than "json", including values outside
\x7b"text", "json"\x7d, it selects the base text url and issues the
request; the INVALID_PARAMS guard exists only in call_tool, which rejects
an invalid format with no request issued. -/
theorem c9_lookup_has_no_format_guard
    (t : HttpRequest → HttpOutcome) (ua f g : String) (hf : f ≠ "json")
    (hg1 : g ≠ "text") (hg2 : g ≠ "json") :
    (IpcheckMcp.get_ip_address t f ua).1 =
      [⟨"https://ifconfig.me", true, ua, 10⟩]
    ∧ IpcheckMcp.call_tool t ua (some g) =
      ([], Except.error ⟨IpcheckMcp.ErrorCode.INVALID_PARAMS,
        "Format must be \x27text\x27 or \x27json\x27"⟩) := by
  constructor
  · rw [IpcheckMcp.get_ip_address_requests, if_neg hf]
  · unfold IpcheckMcp.call_tool
    simp [hg1, hg2]

/-- Witness for C9 at the invalid format values xml and yaml. -/
theorem c9_witness :
    ("xml" : String) ≠ "json" ∧ ("yaml" : String) ≠ "text" ∧
    ("yaml" : String) ≠ "json" ∧
    ((IpcheckMcp.get_ip_address (stubTransport 200 "10.0.0.1") "xml"
        IpcheckMcp.DEFAULT_USER_AGENT).1 =
      [⟨"https://ifconfig.me", true, IpcheckMcp.DEFAULT_USER_AGENT, 10⟩]
    ∧ IpcheckMcp.call_tool (stubTransport 200 "10.0.0.1")
        IpcheckMcp.DEFAULT_USER_AGENT (some "yaml") =
      ([], Except.error ⟨IpcheckMcp.ErrorCode.INVALID_PARAMS,
        "Format must be \x27text\x27 or \x27json\x27"⟩)) :=
  ⟨by decide, by decide, by decide,
    c9_lookup_has_no_format_guard (stubTransport 200 "10.0.0.1")
      IpcheckMcp.DEFAULT_USER_AGENT "xml" "yaml" (by decide) (by decide)
      (by decide)⟩

/-- C10: in the FastMCP variant, for every transport-level failure cause
and every valid format, the except httpx.HTTPError handler evaluates
response.status_code although response was never bound, so the invocation
fails with UnboundLocalError on the name response rather than with the
intended RuntimeError classification. -/
theorem c10_fastmcp_transport_failure_unbound_local
    (cause ua f : String) (hf : f = "text" ∨ f = "json") :
    (FastMcpVariant.get_ip_address (stubFailure cause) f ua).2 =
      Except.error (FastMcpVariant.PyError.unboundLocalError "response") := by
  rcases hf with hf | hf <;> subst hf
  · rw [FastMcpVariant.get_ip_address_text]
    rfl
  · rw [FastMcpVariant.get_ip_address_json]
    rfl

/-- Witness for C10 at a concrete DNS failure cause with format "json". -/
theorem c10_witness :
    (("json" : String) = "text" ∨ ("json" : String) = "json") ∧
    (FastMcpVariant.get_ip_address
        (stubFailure "ConnectError: [Errno -2] Name or service not known")
        "json" FastMcpVariant.DEFAULT_USER_AGENT).2 =
      Except.error (FastMcpVariant.PyError.unboundLocalError "response") :=
  ⟨Or.inr rfl,
    c10_fastmcp_transport_failure_unbound_local
      "ConnectError: [Errno -2] Name or service not known"
      FastMcpVariant.DEFAULT_USER_AGENT "json" (Or.inr rfl)⟩
